import Mathlib

/-!
# Verification of the TelemetryHealthCare HealthKit processing pipeline

Shallow embedding of `healthkit_data_processor.py` (class `HealthKitDataProcessor`):
raw-sample validation, time windowing, feature extraction, data-quality scoring,
rhythm prediction post-processing, and report generation.

Modelling conventions:
* Timestamps (`startDate`, `endDate`) are integers (seconds); a window of
  `h` hours spans `3600 * h` time units, mirroring `timedelta(hours=h)`.
* Sample values are rationals `ℚ` (exact arithmetic in place of floats);
  derived quantities that involve square roots or fractional powers
  (`std`, `pnn50`, the quality score's `cv`) live in `ℝ`.
* Pandas `Series.max()` on an empty datetime column yields `NaT`; we model a
  possibly-missing timestamp as `Option Int`.  Python's two-argument `max`
  keeps the first argument when comparisons with `NaT` are all `False`, and a
  window filter against `NaT` bounds keeps nothing; `pyTsMax` and the window
  functions reproduce that behaviour.
* Python exceptions become an `Except ProcError` result; the two distinct
  `ValueError` messages of the source are the two constructors of `ProcError`.
* The fitted sklearn pipeline is opaque: a `ModelPipeline` record holding the
  `predict` / `predict_proba` functions over the three model features.
-/

namespace THC

/-- One heart-rate measurement, as in the dicts consumed by
`process_healthkit_heart_rate` (the `unit` field is never read by the code and
is omitted). -/
structure HRSample where
  startDate : Int
  endDate : Int
  value : ℚ
deriving DecidableEq, Repr

/-- One heart-rate-variability measurement, as consumed by
`process_healthkit_hrv_data`; `type` is the metric kind column
(`SDNN` or `RMSSD`). -/
structure HRVSample where
  startDate : Int
  endDate : Int
  value : ℚ
  type : String
deriving DecidableEq, Repr

/-- The error outcomes of the pipeline: the two `ValueError` raises of the
source.  `emptyInput` carries the message text; `insufficientData` carries the
observed window count and the required minimum (the constant `10` compared
against in `extract_features`). -/
inductive ProcError where
  | emptyInput (msg : String)
  | insufficientData (observed required : Nat)
deriving DecidableEq, Repr

/-- Mean of a list of rationals (`Series.mean()`).  For the empty list this is
`0/0 = 0` in Lean (pandas would give `NaN`; every use in the code is guarded by
a non-emptiness check). -/
def listMean (l : List ℚ) : ℚ := l.sum / l.length

/-- Sample variance with `ddof = 1`, matching pandas `Series.std()^2`.  For
lists of length ≤ 1 the division is by zero and yields `0` (pandas: `NaN`;
every use in the code is guarded by a length check). -/
def sampleVariance (l : List ℚ) : ℚ :=
  (l.map (fun x => (x - listMean l) ^ 2)).sum / ((l.length : ℚ) - 1)

/-- Sample standard deviation, matching pandas `Series.std()`. -/
noncomputable def sampleStd (l : List ℚ) : ℝ :=
  Real.sqrt ((sampleVariance l : ℚ) : ℝ)

/-- `_validate_heart_rate_data`: keep the rows with
`30 <= value <= 250` (physiologically reasonable range). -/
def validate_heart_rate_data (df : List HRSample) : List HRSample :=
  df.filter (fun s => decide (30 ≤ s.value ∧ s.value ≤ 250))

/-- `_validate_hrv_data`: keep the rows with `1 <= value <= 200`
(reasonable HRV range in ms). -/
def validate_hrv_data (df : List HRVSample) : List HRVSample :=
  df.filter (fun s => decide (1 ≤ s.value ∧ s.value ≤ 200))

/-- `process_healthkit_heart_rate`: raise on an empty input list, then
validate and sort ascending by `startDate`. -/
def process_healthkit_heart_rate (heart_rate_data : List HRSample) :
    Except ProcError (List HRSample) :=
  if heart_rate_data = [] then
    .error (.emptyInput "No heart rate data provided")
  else
    .ok ((validate_heart_rate_data heart_rate_data).mergeSort
      (fun a b => decide (a.startDate ≤ b.startDate)))

/-- `process_healthkit_hrv_data`: raise on an empty input list, then validate
and sort ascending by `startDate`. -/
def process_healthkit_hrv_data (hrv_data : List HRVSample) :
    Except ProcError (List HRVSample) :=
  if hrv_data = [] then
    .error (.emptyInput "No HRV data provided")
  else
    .ok ((validate_hrv_data hrv_data).mergeSort
      (fun a b => decide (a.startDate ≤ b.startDate)))

/-- Python's binary `max` over possibly-`NaT` timestamps: comparisons against
`NaT` are `False`, so `max(NaT, x) = NaT` and `max(x, NaT) = x`. -/
def pyTsMax : Option Int → Option Int → Option Int
  | none, _ => none
  | some a, none => some a
  | some a, some b => some (max a b)

/-- `latest_time` of `extract_features`:
`max(heart_rate_df['startDate'].max(), hrv_df['startDate'].max())`. -/
def latestTime (heart_rate_df : List HRSample) (hrv_df : List HRVSample) : Option Int :=
  pyTsMax (heart_rate_df.map HRSample.startDate).max? (hrv_df.map HRVSample.startDate).max?

/-- `hr_window` of `extract_features`: rows with
`start_time <= startDate <= latest_time`, where
`start_time = latest_time - timedelta(hours=w)`.  When `latest_time` is `NaT`
the comparisons are all `False` and the window is empty. -/
def hrWindow (heart_rate_df : List HRSample) (latest_time : Option Int)
    (time_window_hours : Nat) : List HRSample :=
  match latest_time with
  | none => []
  | some t =>
    heart_rate_df.filter
      (fun s => decide (t - 3600 * (time_window_hours : Int) ≤ s.startDate ∧ s.startDate ≤ t))

/-- `hrv_window` of `extract_features`, same filter over the HRV frame. -/
def hrvWindow (hrv_df : List HRVSample) (latest_time : Option Int)
    (time_window_hours : Nat) : List HRVSample :=
  match latest_time with
  | none => []
  | some t =>
    hrv_df.filter
      (fun s => decide (t - 3600 * (time_window_hours : Int) ≤ s.startDate ∧ s.startDate ≤ t))

/-- `_estimate_pnn50_from_rmssd`:
`min(0.6, max(0.0, (rmssd_value / 150) ** 1.5))`. -/
noncomputable def estimate_pnn50_from_rmssd (rmssd_value : ℝ) : ℝ :=
  min 0.6 (max 0.0 ((rmssd_value / 150) ^ (1.5 : ℝ)))

/-- `_estimate_pnn50_from_hr_std`: `min(0.4, max(0.0, hr_std / 50))`. -/
noncomputable def estimate_pnn50_from_hr_std (hr_std : ℝ) : ℝ :=
  min 0.4 (max 0.0 (hr_std / 50))

/-- `_calculate_data_quality_score`: additive contributions from heart-rate
sample count, HRV availability, and the coefficient of variation of the
heart-rate values, clamped by `min(1.0, score)`. -/
noncomputable def calculate_data_quality_score (hr_df : List HRSample)
    (hrv_df : List HRVSample) : ℝ :=
  let countScore : ℝ := if 50 ≤ hr_df.length then 0.4 else if 20 ≤ hr_df.length then 0.2 else 0
  let hrvScore : ℝ := if 5 ≤ hrv_df.length then 0.3 else if 1 ≤ hrv_df.length then 0.1 else 0
  let cvScore : ℝ :=
    if 1 < hr_df.length then
      let cv : ℝ := sampleStd (hr_df.map HRSample.value)
        / ((listMean (hr_df.map HRSample.value) : ℚ) : ℝ)
      if cv < 0.3 then 0.3 else if cv < 0.5 then 0.1 else 0
    else 0
  min 1 (countScore + hrvScore + cvScore)

/-- The quality score as a function of the two sample counts and the
coefficient of variation, used to state "all else equal" monotonicity;
`scoreParts_eq_quality_score` below identifies it with
`calculate_data_quality_score`. -/
noncomputable def scoreParts (nHr nHrv : Nat) (cv : ℝ) : ℝ :=
  min 1 ((if 50 ≤ nHr then (0.4 : ℝ) else if 20 ≤ nHr then 0.2 else 0)
    + (if 5 ≤ nHrv then (0.3 : ℝ) else if 1 ≤ nHrv then 0.1 else 0)
    + (if 1 < nHr then (if cv < 0.3 then (0.3 : ℝ) else if cv < 0.5 then 0.1 else 0) else 0))

/-- The feature row assembled by `extract_features` (`feature_row` dict). -/
structure FeatureRow where
  timestamp : Option Int
  mean_heart_rate : ℚ
  std_heart_rate : ℝ
  pnn50 : ℝ
  data_quality_score : ℝ
  sample_count_hr : Nat
  sample_count_hrv : Nat

/-- `extract_features`: window both frames around the latest `startDate`,
enforce the 10-sample minimum on the heart-rate window, then build the single
feature row. -/
noncomputable def extract_features (heart_rate_df : List HRSample)
    (hrv_df : List HRVSample) (time_window_hours : Nat) :
    Except ProcError FeatureRow :=
  let latest_time := latestTime heart_rate_df hrv_df
  let hr_window := hrWindow heart_rate_df latest_time time_window_hours
  let hrv_window := hrvWindow hrv_df latest_time time_window_hours
  if hr_window.length < 10 then
    .error (.insufficientData hr_window.length 10)
  else
    let mean_heart_rate := listMean (hr_window.map HRSample.value)
    let std_heart_rate := sampleStd (hr_window.map HRSample.value)
    let rmssd_data := hrv_window.filter (fun s => s.type == "RMSSD")
    let pnn50 : ℝ :=
      if 0 < rmssd_data.length then
        estimate_pnn50_from_rmssd ((listMean (rmssd_data.map HRVSample.value) : ℚ) : ℝ)
      else
        estimate_pnn50_from_hr_std std_heart_rate
    .ok
      { timestamp := latest_time
        mean_heart_rate := mean_heart_rate
        std_heart_rate := std_heart_rate
        pnn50 := pnn50
        data_quality_score := calculate_data_quality_score hr_window hrv_window
        sample_count_hr := hr_window.length
        sample_count_hrv := hrv_window.length }

/-- The opaque fitted sklearn pipeline: `predict` and `predict_proba` over the
three model features `(mean_heart_rate, std_heart_rate, pnn50)`.  `predict`
yields the class index; `predict_proba` yields the
`(normal, irregular)` probability pair. -/
structure ModelPipeline where
  predict : ℚ → ℝ → ℝ → Nat
  predict_proba : ℚ → ℝ → ℝ → ℝ × ℝ

/-- One row of the `results_df` built by `predict_rhythm`: the copied feature
columns plus the prediction columns. -/
structure ResultsRow where
  features : FeatureRow
  prediction : Nat
  normal_probability : ℝ
  irregular_probability : ℝ
  confidence : ℝ
  rhythm_classification : String

/-- `predict_rhythm`: run the model on the three feature columns and append
the prediction, per-class probabilities, `confidence = max` of the two
probabilities, and the `Normal` / `Irregular` label. -/
noncomputable def predict_rhythm (model_pipeline : ModelPipeline)
    (features_df : FeatureRow) : ResultsRow :=
  let prediction := model_pipeline.predict features_df.mean_heart_rate
    features_df.std_heart_rate features_df.pnn50
  let probabilities := model_pipeline.predict_proba features_df.mean_heart_rate
    features_df.std_heart_rate features_df.pnn50
  { features := features_df
    prediction := prediction
    normal_probability := probabilities.1
    irregular_probability := probabilities.2
    confidence := max probabilities.1 probabilities.2
    rhythm_classification := if prediction = 0 then "Normal" else "Irregular" }

/-- Python's `f"{x:.0f}"` applied to the (rational-valued) mean heart rate:
the value rounded to the nearest integer, rendered in decimal.  (Python
rounds halves to even; `round` rounds halves up — the two agree away from
exact halves, and no claim depends on half-way cases.) -/
def fmt0 (x : ℚ) : String := toString (round x)

/-- `_generate_clinical_interpretation`: one of four templates selected by the
label and a strict `confidence > 0.8` test, with the mean rate embedded. -/
noncomputable def generate_clinical_interpretation (result : ResultsRow) : String :=
  let rhythm := result.rhythm_classification
  let confidence := result.confidence
  let mean_hr := result.features.mean_heart_rate
  if rhythm = "Normal" then
    if confidence > 0.8 then
      "High confidence normal rhythm detected. Heart rate " ++ fmt0 mean_hr
        ++ " BPM within normal range."
    else
      "Likely normal rhythm, but consider additional monitoring. Heart rate "
        ++ fmt0 mean_hr ++ " BPM."
  else
    if confidence > 0.8 then
      "High confidence irregular rhythm detected. Heart rate " ++ fmt0 mean_hr
        ++ " BPM. Recommend medical evaluation."
    else
      "Possible irregular rhythm detected. Heart rate " ++ fmt0 mean_hr
        ++ " BPM. Consider further assessment."

/-- `_generate_recommendations`: sequential appends under the label /
confidence / data-quality conditions, then the two unconditional reminders. -/
noncomputable def generate_recommendations (result : ResultsRow) : List String :=
  let rhythm := result.rhythm_classification
  let confidence := result.confidence
  let data_quality := result.features.data_quality_score
  (if rhythm = "Irregular" then
      ["Consult with a healthcare provider about irregular rhythm detection",
       "Continue regular monitoring with Apple Watch"]
      ++ (if confidence < 0.7 then
            ["Consider additional ECG recordings for confirmation"]
          else [])
    else [])
  ++ (if data_quality < 0.5 then
        ["Improve data quality by ensuring proper Apple Watch fit",
         "Take readings during rest periods for better accuracy"]
      else [])
  ++ ["Maintain regular physical activity as recommended by your doctor",
      "Continue monitoring trends over time"]

/-- The report dict built by `generate_health_report` (nested dicts
flattened into one record). -/
structure Report where
  timestamp : Option Int
  rhythm_classification : String
  confidence_score : ℝ
  irregular_probability : ℝ
  mean_heart_rate : ℚ
  heart_rate_variability : ℝ
  pnn50 : ℝ
  quality_score : ℝ
  heart_rate_samples : Nat
  hrv_samples : Nat
  clinical_interpretation : String
  recommendations : List String

/-- The report built from one results row (the body of
`generate_health_report` applied to `results_df.iloc[-1]`). -/
noncomputable def report_of_row (latest_result : ResultsRow) : Report :=
  { timestamp := latest_result.features.timestamp
    rhythm_classification := latest_result.rhythm_classification
    confidence_score := latest_result.confidence
    irregular_probability := latest_result.irregular_probability
    mean_heart_rate := latest_result.features.mean_heart_rate
    heart_rate_variability := latest_result.features.std_heart_rate
    pnn50 := latest_result.features.pnn50
    quality_score := latest_result.features.data_quality_score
    heart_rate_samples := latest_result.features.sample_count_hr
    hrv_samples := latest_result.features.sample_count_hrv
    clinical_interpretation := generate_clinical_interpretation latest_result
    recommendations := generate_recommendations latest_result }

/-- `generate_health_report`: report of the last results row
(`results_df.iloc[-1]`; `none` models the IndexError on an empty frame). -/
noncomputable def generate_health_report (results_df : List ResultsRow) : Option Report :=
  results_df.getLast?.map report_of_row

/-- The full pipeline of `process_sample_healthkit_data`: process both raw
lists, extract features, predict, and report on the single results row. -/
noncomputable def run_pipeline (model : ModelPipeline)
    (heart_rate_data : List HRSample) (hrv_data : List HRVSample)
    (time_window_hours : Nat) : Except ProcError Report := do
  let hr_df ← process_healthkit_heart_rate heart_rate_data
  let hrv_df ← process_healthkit_hrv_data hrv_data
  let features_df ← extract_features hr_df hrv_df time_window_hours
  let results_df := predict_rhythm model features_df
  return report_of_row results_df

/-- Modelled from the spec (for comparison with the code, claim C1): the
window reference time as the spec words it, `latest = max(endTime over all
input series)`. -/
def specLatestTime (heart_rate_df : List HRSample) (hrv_df : List HRVSample) :
    Option Int :=
  pyTsMax (heart_rate_df.map HRSample.endDate).max? (hrv_df.map HRVSample.endDate).max?

/-- Modelled from the spec (for comparison with the code, claim C1): the
heart-rate window per the spec's words, samples with `startTime` in
`[latest − windowLength, latest]` where `latest` is the maximum `endTime`. -/
def specHrWindow (heart_rate_df : List HRSample) (hrv_df : List HRVSample)
    (time_window_hours : Nat) : List HRSample :=
  match specLatestTime heart_rate_df hrv_df with
  | none => []
  | some t =>
    heart_rate_df.filter
      (fun s => decide (t - 3600 * (time_window_hours : Int) ≤ s.startDate ∧ s.startDate ≤ t))

/-! ## Concrete fixtures used by witnesses and counterexamples -/

/-- A trivial fitted predictor (class 0, probabilities `(1, 0)`). -/
noncomputable def model0 : ModelPipeline :=
  ⟨fun _ _ _ => 0, fun _ _ _ => (1, 0)⟩

/-- A predictor whose probability output is the uniform pair `(1/2, 1/2)`. -/
noncomputable def modelHalf : ModelPipeline :=
  ⟨fun _ _ _ => 0, fun _ _ _ => (1 / 2, 1 / 2)⟩

/-- Eight valid heart-rate samples, one per minute (fewer than the required 10). -/
def rawHr8 : List HRSample :=
  [⟨0, 60, 72⟩, ⟨60, 120, 71⟩, ⟨120, 180, 73⟩, ⟨180, 240, 72⟩,
   ⟨240, 300, 74⟩, ⟨300, 360, 72⟩, ⟨360, 420, 70⟩, ⟨420, 480, 72⟩]

/-- Ten valid heart-rate samples, one per minute. -/
def rawHr10 : List HRSample :=
  [⟨0, 60, 72⟩, ⟨60, 120, 71⟩, ⟨120, 180, 73⟩, ⟨180, 240, 72⟩,
   ⟨240, 300, 74⟩, ⟨300, 360, 72⟩, ⟨360, 420, 70⟩, ⟨420, 480, 72⟩,
   ⟨480, 540, 73⟩, ⟨540, 600, 72⟩]

/-- A single valid SDNN measurement. -/
def rawHrv1 : List HRVSample := [⟨0, 300, 50, "SDNN"⟩]

/-- A results row classified `Normal` with confidence exactly `0.8`. -/
noncomputable def rowCEX : ResultsRow :=
  { features :=
      { timestamp := none, mean_heart_rate := 72, std_heart_rate := 0, pnn50 := 0,
        data_quality_score := 0, sample_count_hr := 0, sample_count_hrv := 0 }
    prediction := 0
    normal_probability := 0.8
    irregular_probability := 0.2
    confidence := 0.8
    rhythm_classification := "Normal" }

/-- A results row classified `Normal` with confidence `0.9`. -/
noncomputable def rowHi : ResultsRow :=
  { features :=
      { timestamp := none, mean_heart_rate := 72, std_heart_rate := 0, pnn50 := 0,
        data_quality_score := 0, sample_count_hr := 0, sample_count_hrv := 0 }
    prediction := 0
    normal_probability := 0.9
    irregular_probability := 0.1
    confidence := 0.9
    rhythm_classification := "Normal" }

/-- A feature row with zero analytic fields and empty bookkeeping. -/
def row0 : FeatureRow :=
  { timestamp := none, mean_heart_rate := 72, std_heart_rate := 0, pnn50 := 0,
    data_quality_score := 0, sample_count_hr := 0, sample_count_hrv := 0 }

/-- `row0` with different bookkeeping fields (timestamp, quality, counts). -/
def row1 : FeatureRow :=
  { timestamp := some 480, mean_heart_rate := 72, std_heart_rate := 0, pnn50 := 0,
    data_quality_score := 1, sample_count_hr := 55, sample_count_hrv := 9 }

/-- The four interpretation templates of `_generate_clinical_interpretation`,
as functions of the embedded mean heart rate. -/
def tmplHighNormal (hr : ℚ) : String :=
  "High confidence normal rhythm detected. Heart rate " ++ fmt0 hr
    ++ " BPM within normal range."

/-- Low-confidence template for the `Normal` label. -/
def tmplLowNormal (hr : ℚ) : String :=
  "Likely normal rhythm, but consider additional monitoring. Heart rate "
    ++ fmt0 hr ++ " BPM."

/-- High-confidence template for the `Irregular` label. -/
def tmplHighIrregular (hr : ℚ) : String :=
  "High confidence irregular rhythm detected. Heart rate " ++ fmt0 hr
    ++ " BPM. Recommend medical evaluation."

/-- Low-confidence template for the `Irregular` label. -/
def tmplLowIrregular (hr : ℚ) : String :=
  "Possible irregular rhythm detected. Heart rate " ++ fmt0 hr
    ++ " BPM. Consider further assessment."

/-! ## Helper lemmas -/

lemma int_max?_spec {l : List Int} {a : Int} :
    l.max? = some a ↔ a ∈ l ∧ ∀ b ∈ l, b ≤ a := by
  haveI : Std.Antisymm (fun x1 x2 : Int => x1 ≤ x2) := ⟨@fun _ _ h h' => le_antisymm h h'⟩
  exact List.max?_eq_some_iff (fun _ => le_refl _) max_choice (fun _ _ _ => max_le_iff)

lemma max?_isSome_of_ne_nil {l : List Int} (h : l ≠ []) : ∃ a, l.max? = some a := by
  cases hl : l.max? with
  | none => exact absurd (List.max?_eq_none_iff.mp hl) h
  | some a => exact ⟨a, rfl⟩

lemma extract_features_error (hr : List HRSample) (hrv : List HRVSample) (w : Nat)
    (h : (hrWindow hr (latestTime hr hrv) w).length < 10) :
    extract_features hr hrv w =
      .error (.insufficientData (hrWindow hr (latestTime hr hrv) w).length 10) := by
  simp only [extract_features]
  rw [if_pos h]

lemma le_listMean_of_forall_le {l : List ℚ} {b : ℚ} (hne : l ≠ []) (h : ∀ x ∈ l, b ≤ x) :
    b ≤ listMean l := by
  have hlen : 0 < (l.length : ℚ) := by
    have := List.length_pos.mpr hne
    exact_mod_cast this
  rw [listMean, le_div_iff₀ hlen]
  calc b * l.length = l.length • b := by push_cast [nsmul_eq_mul]; ring
  _ ≤ l.sum := List.card_nsmul_le_sum l b h

lemma mem_of_mem_hrWindow {df : List HRSample} {lt : Option Int} {w : Nat} {s : HRSample}
    (h : s ∈ hrWindow df lt w) : s ∈ df := by
  cases lt with
  | none => simp [hrWindow] at h
  | some t => exact (List.mem_filter.mp h).1

lemma mem_ok_process_range {raw hr_df : List HRSample} {s : HRSample}
    (hproc : process_healthkit_heart_rate raw = .ok hr_df) (hs : s ∈ hr_df) :
    30 ≤ s.value ∧ s.value ≤ 250 := by
  by_cases hne : raw = []
  · simp [process_healthkit_heart_rate, hne] at hproc
  · simp only [process_healthkit_heart_rate, if_neg hne] at hproc
    injection hproc with h'
    subst h'
    have := (List.mem_filter.mp (List.mem_mergeSort.mp hs)).2
    simpa using this

lemma procHr8 : process_healthkit_heart_rate rawHr8 = .ok rawHr8 := by
  have hval : validate_heart_rate_data rawHr8 = rawHr8 := by decide
  simp only [process_healthkit_heart_rate]
  rw [if_neg (by decide), hval, List.mergeSort_of_sorted (by decide)]

lemma procHr10 : process_healthkit_heart_rate rawHr10 = .ok rawHr10 := by
  have hval : validate_heart_rate_data rawHr10 = rawHr10 := by decide
  simp only [process_healthkit_heart_rate]
  rw [if_neg (by decide), hval, List.mergeSort_of_sorted (by decide)]

lemma procHrv1 : process_healthkit_hrv_data rawHrv1 = .ok rawHrv1 := by
  have hval : validate_hrv_data rawHrv1 = rawHrv1 := by decide
  simp only [process_healthkit_hrv_data]
  rw [if_neg (by decide), hval, List.mergeSort_of_sorted (by decide)]

/-! ## Claim theorems -/

/-- C1, counterexample: the claim says the window reference time is the
maximum `endTime` over all input series; the code takes the maximum
`startDate`.  On an input whose last-starting sample has a much later
`endDate`, the window the code computes differs from the window described by
the claim (`specHrWindow`, modelled from the spec's words). -/
theorem C1_latest_endTime_cex :
    hrWindow [⟨0, 0, 72⟩, ⟨3600, 86400, 75⟩]
        (latestTime [⟨0, 0, 72⟩, ⟨3600, 86400, 75⟩] [⟨0, 0, 50, "SDNN"⟩]) 1 ≠
      specHrWindow [⟨0, 0, 72⟩, ⟨3600, 86400, 75⟩] [⟨0, 0, 50, "SDNN"⟩] 1 := by
  decide

/-- C1 (amended): for every pair of non-empty validated series, the window
reference time `latest` is the maximum **startTime** (not endTime) over all
input series, `start = latest − 3600·windowHours`, and each windowed series is
exactly the sub-sequence of that series whose `startDate` lies in the closed
interval `[start, latest]`, both boundary ties included. -/
theorem C1_window_max_startTime_inclusive (hr : List HRSample) (hrv : List HRVSample)
    (w : Nat) (hhr : hr ≠ []) (hhrv : hrv ≠ []) :
    ∃ L : Int,
      latestTime hr hrv = some L ∧
      ((∃ s ∈ hr, s.startDate = L) ∨ (∃ s ∈ hrv, s.startDate = L)) ∧
      (∀ s ∈ hr, s.startDate ≤ L) ∧ (∀ s ∈ hrv, s.startDate ≤ L) ∧
      hrWindow hr (latestTime hr hrv) w =
        hr.filter (fun s => decide (L - 3600 * (w : Int) ≤ s.startDate ∧ s.startDate ≤ L)) ∧
      hrvWindow hrv (latestTime hr hrv) w =
        hrv.filter (fun s => decide (L - 3600 * (w : Int) ≤ s.startDate ∧ s.startDate ≤ L)) ∧
      (∀ s, s ∈ hrWindow hr (latestTime hr hrv) w ↔
        s ∈ hr ∧ L - 3600 * (w : Int) ≤ s.startDate ∧ s.startDate ≤ L) ∧
      (∀ s, s ∈ hrvWindow hrv (latestTime hr hrv) w ↔
        s ∈ hrv ∧ L - 3600 * (w : Int) ≤ s.startDate ∧ s.startDate ≤ L) := by
  obtain ⟨a, ha⟩ := max?_isSome_of_ne_nil (l := hr.map HRSample.startDate) (by simpa using hhr)
  obtain ⟨b, hb⟩ := max?_isSome_of_ne_nil (l := hrv.map HRVSample.startDate) (by simpa using hhrv)
  obtain ⟨hamem, hale⟩ := int_max?_spec.mp ha
  obtain ⟨hbmem, hble⟩ := int_max?_spec.mp hb
  have hL : latestTime hr hrv = some (max a b) := by
    simp [latestTime, pyTsMax, ha, hb]
  refine ⟨max a b, hL, ?_, ?_, ?_, ?_, ?_, ?_, ?_⟩
  · rcases max_choice a b with h | h
    · left
      obtain ⟨s, hs, rfl⟩ := List.mem_map.mp hamem
      exact ⟨s, hs, h.symm⟩
    · right
      obtain ⟨s, hs, rfl⟩ := List.mem_map.mp hbmem
      exact ⟨s, hs, h.symm⟩
  · intro s hs
    exact le_trans (hale _ (List.mem_map_of_mem _ hs)) (le_max_left a b)
  · intro s hs
    exact le_trans (hble _ (List.mem_map_of_mem _ hs)) (le_max_right a b)
  · rw [hL]; rfl
  · rw [hL]; rfl
  · intro s
    rw [hL]
    simp [hrWindow, List.mem_filter]
  · intro s
    rw [hL]
    simp [hrvWindow, List.mem_filter]

/-- C1, witness: the amended windowing characterisation instantiated on a
concrete pair of one-sample series. -/
theorem C1_window_max_startTime_inclusive_witness :
    ∃ L : Int,
      latestTime [⟨0, 60, 72⟩] [⟨0, 300, 50, "SDNN"⟩] = some L ∧
      ((∃ s ∈ [(⟨0, 60, 72⟩ : HRSample)], s.startDate = L) ∨
        (∃ s ∈ [(⟨0, 300, 50, "SDNN"⟩ : HRVSample)], s.startDate = L)) ∧
      (∀ s ∈ [(⟨0, 60, 72⟩ : HRSample)], s.startDate ≤ L) ∧
      (∀ s ∈ [(⟨0, 300, 50, "SDNN"⟩ : HRVSample)], s.startDate ≤ L) ∧
      hrWindow [⟨0, 60, 72⟩] (latestTime [⟨0, 60, 72⟩] [⟨0, 300, 50, "SDNN"⟩]) 24 =
        List.filter (fun s => decide (L - 3600 * (24 : Int) ≤ s.startDate ∧ s.startDate ≤ L))
          [⟨0, 60, 72⟩] ∧
      hrvWindow [⟨0, 300, 50, "SDNN"⟩]
          (latestTime [⟨0, 60, 72⟩] [⟨0, 300, 50, "SDNN"⟩]) 24 =
        List.filter (fun s => decide (L - 3600 * (24 : Int) ≤ s.startDate ∧ s.startDate ≤ L))
          [⟨0, 300, 50, "SDNN"⟩] ∧
      (∀ s, s ∈ hrWindow [⟨0, 60, 72⟩]
          (latestTime [⟨0, 60, 72⟩] [⟨0, 300, 50, "SDNN"⟩]) 24 ↔
        s ∈ [(⟨0, 60, 72⟩ : HRSample)] ∧
          L - 3600 * (24 : Int) ≤ s.startDate ∧ s.startDate ≤ L) ∧
      (∀ s, s ∈ hrvWindow [⟨0, 300, 50, "SDNN"⟩]
          (latestTime [⟨0, 60, 72⟩] [⟨0, 300, 50, "SDNN"⟩]) 24 ↔
        s ∈ [(⟨0, 300, 50, "SDNN"⟩ : HRVSample)] ∧
          L - 3600 * (24 : Int) ≤ s.startDate ∧ s.startDate ≤ L) :=
  C1_window_max_startTime_inclusive [⟨0, 60, 72⟩] [⟨0, 300, 50, "SDNN"⟩] 24
    (by decide) (by decide)

/-- C2: whenever the validated, windowed primary series has fewer than 10
samples, `extract_features` fails with the insufficient-data error carrying
the observed count and the required minimum 10, and the full pipeline returns
that same error for **every** predictor — the output does not depend on the
predictor, so `predict` / `predict_proba` are never consulted. -/
theorem C2_insufficient_data_blocks_predictor
    (heart_rate_data : List HRSample) (hrv_data : List HRVSample) (w : Nat)
    (hr_df : List HRSample) (hrv_df : List HRVSample)
    (hhr : process_healthkit_heart_rate heart_rate_data = .ok hr_df)
    (hhrv : process_healthkit_hrv_data hrv_data = .ok hrv_df)
    (hlt : (hrWindow hr_df (latestTime hr_df hrv_df) w).length < 10) :
    extract_features hr_df hrv_df w =
      .error (.insufficientData (hrWindow hr_df (latestTime hr_df hrv_df) w).length 10) ∧
    ∀ model : ModelPipeline,
      run_pipeline model heart_rate_data hrv_data w =
        .error (.insufficientData (hrWindow hr_df (latestTime hr_df hrv_df) w).length 10) := by
  refine ⟨extract_features_error _ _ _ hlt, fun model => ?_⟩
  simp only [run_pipeline, hhr, hhrv, bind, Except.bind, extract_features_error hr_df hrv_df w hlt]

/-- C2, witness: a primary window of 8 samples makes the pipeline fail with
`insufficientData 8 10`. -/
theorem C2_insufficient_data_blocks_predictor_witness :
    run_pipeline model0 rawHr8 rawHrv1 24 = .error (.insufficientData 8 10) := by
  have h := (C2_insufficient_data_blocks_predictor rawHr8 rawHrv1 24 rawHr8 rawHrv1
    procHr8 procHrv1 (by decide)).2
  have h8 : (hrWindow rawHr8 (latestTime rawHr8 rawHrv1) 24).length = 8 := by decide
  rw [h8] at h
  exact h model0

/-- C3: the data-quality score always lies in `[0, 1]`;
`calculate_data_quality_score` factors through `scoreParts` of the two sample
counts and the coefficient of variation, and `scoreParts` is monotone in the
primary count and antitone in the coefficient of variation, everything else
held fixed. -/
theorem C3_quality_score_bounds_monotone :
    (∀ (hr : List HRSample) (hrv : List HRVSample),
      0 ≤ calculate_data_quality_score hr hrv ∧ calculate_data_quality_score hr hrv ≤ 1) ∧
    (∀ (hr : List HRSample) (hrv : List HRVSample),
      calculate_data_quality_score hr hrv =
        scoreParts hr.length hrv.length
          (sampleStd (hr.map HRSample.value)
            / ((listMean (hr.map HRSample.value) : ℚ) : ℝ))) ∧
    (∀ (n₁ n₂ m : Nat) (cv : ℝ), n₁ ≤ n₂ → scoreParts n₁ m cv ≤ scoreParts n₂ m cv) ∧
    (∀ (n m : Nat) (cv₁ cv₂ : ℝ), cv₁ ≤ cv₂ → scoreParts n m cv₂ ≤ scoreParts n m cv₁) := by
  have hbound : ∀ (nHr nHrv : Nat) (cv : ℝ),
      0 ≤ scoreParts nHr nHrv cv ∧ scoreParts nHr nHrv cv ≤ 1 := by
    intro nHr nHrv cv
    constructor
    · apply le_min (by norm_num)
      have h1 : (0:ℝ) ≤ (if 50 ≤ nHr then (0.4 : ℝ) else if 20 ≤ nHr then 0.2 else 0) := by
        split_ifs <;> norm_num
      have h2 : (0:ℝ) ≤ (if 5 ≤ nHrv then (0.3 : ℝ) else if 1 ≤ nHrv then 0.1 else 0) := by
        split_ifs <;> norm_num
      have h3 : (0:ℝ) ≤ (if 1 < nHr then
          (if cv < 0.3 then (0.3 : ℝ) else if cv < 0.5 then 0.1 else 0) else 0) := by
        split_ifs <;> norm_num
      linarith
    · exact min_le_left _ _
  refine ⟨fun hr hrv => ?_, fun hr hrv => rfl, ?_, ?_⟩
  · have h := hbound hr.length hrv.length
      (sampleStd (hr.map HRSample.value) / ((listMean (hr.map HRSample.value) : ℚ) : ℝ))
    exact (by rfl : calculate_data_quality_score hr hrv =
      scoreParts hr.length hrv.length _) ▸ h
  · intro n₁ n₂ m cv h
    unfold scoreParts
    apply min_le_min le_rfl
    have h1 : (if 50 ≤ n₁ then (0.4 : ℝ) else if 20 ≤ n₁ then 0.2 else 0)
        ≤ (if 50 ≤ n₂ then (0.4 : ℝ) else if 20 ≤ n₂ then 0.2 else 0) := by
      split_ifs <;> first | (exfalso; omega) | norm_num
    have h3 : (if 1 < n₁ then
          (if cv < 0.3 then (0.3 : ℝ) else if cv < 0.5 then 0.1 else 0) else 0)
        ≤ (if 1 < n₂ then
          (if cv < 0.3 then (0.3 : ℝ) else if cv < 0.5 then 0.1 else 0) else 0) := by
      split_ifs <;> first | (exfalso; omega) | norm_num
    linarith
  · intro n m cv₁ cv₂ h
    unfold scoreParts
    apply min_le_min le_rfl
    have h3 : (if 1 < n then
          (if cv₂ < 0.3 then (0.3 : ℝ) else if cv₂ < 0.5 then 0.1 else 0) else 0)
        ≤ (if 1 < n then
          (if cv₁ < 0.3 then (0.3 : ℝ) else if cv₁ < 0.5 then 0.1 else 0) else 0) := by
      split_ifs <;> first | (exfalso; linarith) | norm_num | linarith
    linarith

/-- C3, witness: the monotonicity statements instantiated at concrete counts
and coefficients of variation. -/
theorem C3_quality_score_bounds_monotone_witness :
    scoreParts 1 0 0 ≤ scoreParts 30 0 0 ∧
    scoreParts 5 2 (1 / 2) ≤ scoreParts 5 2 (1 / 4) ∧
    0 ≤ calculate_data_quality_score [] [] ∧ calculate_data_quality_score [] [] ≤ 1 :=
  ⟨C3_quality_score_bounds_monotone.2.2.1 1 30 0 0 (by norm_num),
   C3_quality_score_bounds_monotone.2.2.2 5 2 (1 / 4) (1 / 2) (by norm_num),
   C3_quality_score_bounds_monotone.1 [] []⟩

/-- C4, counterexample: the claim says a result with confidence exactly `0.8`
selects the high-confidence template; the code tests `confidence > 0.8`
strictly, so at exactly `0.8` it produces the lower-confidence template
instead. -/
theorem C4_confidence_exactly_08_cex :
    generate_clinical_interpretation rowCEX =
      "Likely normal rhythm, but consider additional monitoring. Heart rate 72 BPM." ∧
    generate_clinical_interpretation rowCEX ≠
      "High confidence normal rhythm detected. Heart rate 72 BPM within normal range." := by
  have hf : fmt0 72 = "72" := by norm_num [fmt0, round_eq]; rfl
  have h : generate_clinical_interpretation rowCEX =
      "Likely normal rhythm, but consider additional monitoring. Heart rate 72 BPM." := by
    simp only [generate_clinical_interpretation, rowCEX]
    rw [if_pos trivial, if_neg (by norm_num), hf]
    rfl
  exact ⟨h, by rw [h]; decide⟩

/-- C4 (amended): the clinical interpretation is always one of the four fixed
templates with the mean heart rate embedded, selected by the pair
(label, whether confidence **strictly exceeds** 0.8): confidence above the
threshold selects the high-confidence template of the label and confidence at
most 0.8 — including exactly 0.8 — selects the lower-confidence template. -/
theorem C4_interpretation_templates (r : ResultsRow) :
    (generate_clinical_interpretation r = tmplHighNormal r.features.mean_heart_rate ∨
     generate_clinical_interpretation r = tmplLowNormal r.features.mean_heart_rate ∨
     generate_clinical_interpretation r = tmplHighIrregular r.features.mean_heart_rate ∨
     generate_clinical_interpretation r = tmplLowIrregular r.features.mean_heart_rate) ∧
    (0.8 < r.confidence →
      generate_clinical_interpretation r =
        if r.rhythm_classification = "Normal" then tmplHighNormal r.features.mean_heart_rate
        else tmplHighIrregular r.features.mean_heart_rate) ∧
    (r.confidence ≤ 0.8 →
      generate_clinical_interpretation r =
        if r.rhythm_classification = "Normal" then tmplLowNormal r.features.mean_heart_rate
        else tmplLowIrregular r.features.mean_heart_rate) := by
  simp only [generate_clinical_interpretation, tmplHighNormal, tmplLowNormal,
    tmplHighIrregular, tmplLowIrregular]
  refine ⟨?_, ?_, ?_⟩
  · split_ifs <;> simp
  · intro h
    split_ifs with h1 h2 h2 <;> first | rfl | (exfalso; linarith)
  · intro h
    split_ifs with h1 h2 h2 <;> first | rfl | (exfalso; linarith)

/-- C4, witness: a `Normal` result with confidence `0.9` selects the
high-confidence normal template. -/
theorem C4_interpretation_templates_witness :
    generate_clinical_interpretation rowHi =
      if rowHi.rhythm_classification = "Normal" then tmplHighNormal rowHi.features.mean_heart_rate
      else tmplHighIrregular rowHi.features.mean_heart_rate :=
  (C4_interpretation_templates rowHi).2.1 (by norm_num [rowHi])

/-- C5: the heart-rate Validator stage raises the empty-input error exactly
when the raw list is empty before filtering; a non-empty raw list always
yields a result, even when range filtering removes every sample — in that
case the failure surfaces later in the pipeline as the minimum-count error
`insufficientData 0 10`. -/
theorem C5_empty_input_vs_filtered_out :
    (∀ raw : List HRSample,
        process_healthkit_heart_rate raw = .error (.emptyInput "No heart rate data provided") ↔
          raw = []) ∧
    (∀ raw : List HRSample, raw ≠ [] → ∃ out, process_healthkit_heart_rate raw = .ok out) ∧
    (∀ (model : ModelPipeline) (raw : List HRSample) (hrv_raw : List HRVSample) (w : Nat)
        (hrv_df : List HRVSample), raw ≠ [] → validate_heart_rate_data raw = [] →
        process_healthkit_hrv_data hrv_raw = .ok hrv_df →
        run_pipeline model raw hrv_raw w = .error (.insufficientData 0 10)) := by
  refine ⟨?_, ?_, ?_⟩
  · intro raw
    constructor
    · intro h
      by_contra hne
      simp [process_healthkit_heart_rate, hne] at h
    · intro h
      subst h
      rfl
  · intro raw h
    refine ⟨(validate_heart_rate_data raw).mergeSort
      (fun a b => decide (a.startDate ≤ b.startDate)), ?_⟩
    simp [process_healthkit_heart_rate, h]
  · intro model raw hrv_raw w hrv_df hne hval hhrv
    have hproc : process_healthkit_heart_rate raw = .ok [] := by
      simp [process_healthkit_heart_rate, hne, hval]
    have h0 : (hrWindow ([] : List HRSample) (latestTime [] hrv_df) w).length < 10 := by
      simp [latestTime, pyTsMax, hrWindow]
    have hx := extract_features_error [] hrv_df w h0
    have h00 : (hrWindow ([] : List HRSample) (latestTime [] hrv_df) w).length = 0 := by
      simp [latestTime, pyTsMax, hrWindow]
    rw [h00] at hx
    simp only [run_pipeline, hproc, hhrv, bind, Except.bind, hx]

/-- C5, witness: a single out-of-range sample (value 300) passes the
empty-input check, is filtered out, and the pipeline later fails with the
minimum-count error. -/
theorem C5_empty_input_vs_filtered_out_witness :
    run_pipeline model0 [⟨0, 0, 300⟩] rawHrv1 24 = .error (.insufficientData 0 10) :=
  C5_empty_input_vs_filtered_out.2.2 model0 [⟨0, 0, 300⟩] rawHrv1 24 rawHrv1
    (by decide) (by decide) procHrv1

/-- C6: a feature row produced by `extract_features` takes its `pnn50` from
estimator A (`_estimate_pnn50_from_rmssd`, applied to the mean of the RMSSD
samples of the secondary window) when RMSSD-kind samples exist, and otherwise
from estimator B (`_estimate_pnn50_from_hr_std`, applied to the primary rate
standard deviation); estimator A is monotone on nonnegative inputs with values
in `[0, 0.6]` and estimator B is monotone with values in `[0, 0.4]`. -/
theorem C6_pnn50_estimators :
    (∀ (hr : List HRSample) (hrv : List HRVSample) (w : Nat) (row : FeatureRow),
      extract_features hr hrv w = .ok row →
      ((hrvWindow hrv (latestTime hr hrv) w).filter (fun s => s.type == "RMSSD") ≠ [] →
        row.pnn50 = estimate_pnn50_from_rmssd
          ((listMean (((hrvWindow hrv (latestTime hr hrv) w).filter
            (fun s => s.type == "RMSSD")).map HRVSample.value) : ℚ) : ℝ)) ∧
      ((hrvWindow hrv (latestTime hr hrv) w).filter (fun s => s.type == "RMSSD") = [] →
        row.pnn50 = estimate_pnn50_from_hr_std
          (sampleStd ((hrWindow hr (latestTime hr hrv) w).map HRSample.value)))) ∧
    (∀ x : ℝ, 0 ≤ estimate_pnn50_from_rmssd x ∧ estimate_pnn50_from_rmssd x ≤ 0.6) ∧
    (∀ x y : ℝ, 0 ≤ x → x ≤ y →
      estimate_pnn50_from_rmssd x ≤ estimate_pnn50_from_rmssd y) ∧
    (∀ x : ℝ, 0 ≤ estimate_pnn50_from_hr_std x ∧ estimate_pnn50_from_hr_std x ≤ 0.4) ∧
    (∀ x y : ℝ, x ≤ y → estimate_pnn50_from_hr_std x ≤ estimate_pnn50_from_hr_std y) := by
  refine ⟨?_, ?_, ?_, ?_, ?_⟩
  · intro hr hrv w row h
    simp only [extract_features] at h
    by_cases hlt : (hrWindow hr (latestTime hr hrv) w).length < 10
    · rw [if_pos hlt] at h
      cases h
    · rw [if_neg hlt] at h
      injection h with h'
      subst h'
      constructor
      · intro hne
        have hpos : 0 < ((hrvWindow hrv (latestTime hr hrv) w).filter
            (fun s => s.type == "RMSSD")).length := List.length_pos.mpr hne
        simp only [if_pos hpos]
      · intro heq
        have hnpos : ¬ 0 < ((hrvWindow hrv (latestTime hr hrv) w).filter
            (fun s => s.type == "RMSSD")).length := by simp [heq]
        simp only [if_neg hnpos]
  · intro x
    unfold estimate_pnn50_from_rmssd
    refine ⟨le_min (by norm_num) ?_, min_le_left _ _⟩
    exact le_trans (by norm_num) (le_max_left _ _)
  · intro x y hx hxy
    unfold estimate_pnn50_from_rmssd
    apply min_le_min le_rfl
    apply max_le_max le_rfl
    exact Real.rpow_le_rpow (by positivity) (by linarith) (by norm_num)
  · intro x
    unfold estimate_pnn50_from_hr_std
    refine ⟨le_min (by norm_num) ?_, min_le_left _ _⟩
    exact le_trans (by norm_num) (le_max_left _ _)
  · intro x y hxy
    unfold estimate_pnn50_from_hr_std
    apply min_le_min le_rfl
    apply max_le_max le_rfl
    linarith

/-- C6, witness: monotonicity of both estimators at concrete inputs. -/
theorem C6_pnn50_estimators_witness :
    estimate_pnn50_from_rmssd 30 ≤ estimate_pnn50_from_rmssd 45 ∧
    estimate_pnn50_from_hr_std 5 ≤ estimate_pnn50_from_hr_std 8 :=
  ⟨C6_pnn50_estimators.2.2.1 30 45 (by norm_num) (by norm_num),
   C6_pnn50_estimators.2.2.2.2 5 8 (by norm_num)⟩

/-- C7: the recommendation list is exactly the concatenation, in fixed
priority order, of the clinical-follow-up block (when the label is
`Irregular`), the more-data request (when additionally confidence < 0.7), the
data-quality tips (when the quality score < 0.5), and the two unconditional
wellness reminders; each conditional entry occurs iff its condition holds,
the wellness reminders are always present with the trend reminder last, and
identical inputs give identical ordered lists. -/
theorem C7_recommendations_priority_order (r : ResultsRow) :
    generate_recommendations r =
      (if r.rhythm_classification = "Irregular" then
        ["Consult with a healthcare provider about irregular rhythm detection",
         "Continue regular monitoring with Apple Watch"]
        ++ (if r.confidence < 0.7 then
              ["Consider additional ECG recordings for confirmation"] else [])
      else [])
      ++ (if r.features.data_quality_score < 0.5 then
            ["Improve data quality by ensuring proper Apple Watch fit",
             "Take readings during rest periods for better accuracy"] else [])
      ++ ["Maintain regular physical activity as recommended by your doctor",
          "Continue monitoring trends over time"] ∧
    ("Consult with a healthcare provider about irregular rhythm detection" ∈
        generate_recommendations r ↔ r.rhythm_classification = "Irregular") ∧
    ("Consider additional ECG recordings for confirmation" ∈ generate_recommendations r ↔
      (r.rhythm_classification = "Irregular" ∧ r.confidence < 0.7)) ∧
    ("Improve data quality by ensuring proper Apple Watch fit" ∈ generate_recommendations r ↔
      r.features.data_quality_score < 0.5) ∧
    "Maintain regular physical activity as recommended by your doctor" ∈
      generate_recommendations r ∧
    (generate_recommendations r).getLast? = some "Continue monitoring trends over time" ∧
    (∀ r2 : ResultsRow, r2 = r →
      generate_recommendations r2 = generate_recommendations r) := by
  refine ⟨rfl, ?_, ?_, ?_, ?_, ?_, fun r2 h => by rw [h]⟩ <;>
    by_cases h1 : r.rhythm_classification = "Irregular" <;>
    by_cases h2 : r.confidence < 0.7 <;>
    by_cases h3 : r.features.data_quality_score < 0.5 <;>
    simp [generate_recommendations, h1, h2, h3]

/-- C7, witness: the always-present trend reminder and determinism at a
concrete results row. -/
theorem C7_recommendations_priority_order_witness :
    (generate_recommendations rowHi).getLast? = some "Continue monitoring trends over time" ∧
    generate_recommendations rowHi = generate_recommendations rowHi :=
  ⟨(C7_recommendations_priority_order rowHi).2.2.2.2.2.1,
   (C7_recommendations_priority_order rowHi).2.2.2.2.2.2 rowHi rfl⟩

/-- C8: whenever the quality scorer is reached through the pipeline — the
primary window comes from a validated series and holds at least 10 samples —
the window has more than one sample (so the `cv` branch guard holds), every
value in it lies in `[30, 250]`, and the divisor of `cv = stddev/mean` is at
least 30, hence strictly positive: the division never divides by zero. -/
theorem C8_cv_division_safe (raw hr_df : List HRSample) (hrv_df : List HRVSample) (w : Nat)
    (hproc : process_healthkit_heart_rate raw = .ok hr_df)
    (hlen : 10 ≤ (hrWindow hr_df (latestTime hr_df hrv_df) w).length) :
    1 < (hrWindow hr_df (latestTime hr_df hrv_df) w).length ∧
    (∀ s ∈ hrWindow hr_df (latestTime hr_df hrv_df) w, 30 ≤ s.value ∧ s.value ≤ 250) ∧
    30 ≤ listMean ((hrWindow hr_df (latestTime hr_df hrv_df) w).map HRSample.value) ∧
    0 < ((listMean ((hrWindow hr_df (latestTime hr_df hrv_df) w).map HRSample.value) : ℚ) : ℝ) := by
  set win := hrWindow hr_df (latestTime hr_df hrv_df) w with hwin
  have hrange : ∀ s ∈ win, 30 ≤ s.value ∧ s.value ≤ 250 := fun s hs =>
    mem_ok_process_range hproc (mem_of_mem_hrWindow hs)
  have hne : win.map HRSample.value ≠ [] := by
    intro hemp
    rw [List.map_eq_nil_iff] at hemp
    rw [hemp] at hlen
    simp at hlen
  have hmean : 30 ≤ listMean (win.map HRSample.value) := by
    apply le_listMean_of_forall_le hne
    intro x hx
    obtain ⟨s, hs, rfl⟩ := List.mem_map.mp hx
    exact (hrange s hs).1
  refine ⟨by omega, hrange, hmean, ?_⟩
  have : (0:ℚ) < listMean (win.map HRSample.value) := lt_of_lt_of_le (by norm_num) hmean
  exact_mod_cast this

/-- C8, witness: the safety facts at a concrete validated 10-sample window. -/
theorem C8_cv_division_safe_witness :
    1 < (hrWindow rawHr10 (latestTime rawHr10 rawHrv1) 24).length ∧
    (∀ s ∈ hrWindow rawHr10 (latestTime rawHr10 rawHrv1) 24,
      30 ≤ s.value ∧ s.value ≤ 250) ∧
    30 ≤ listMean ((hrWindow rawHr10 (latestTime rawHr10 rawHrv1) 24).map HRSample.value) ∧
    0 < ((listMean ((hrWindow rawHr10 (latestTime rawHr10 rawHrv1) 24).map
      HRSample.value) : ℚ) : ℝ) :=
  C8_cv_division_safe rawHr10 rawHr10 rawHrv1 24 procHr10 (by decide)

/-- C9: when the two class probabilities returned by the predictor are
nonnegative and sum to 1, the confidence computed by `predict_rhythm` — the
maximum of the two — is at least `1/2`, and the generated report carries
exactly that confidence, so no report has a confidence score below `1/2`. -/
theorem C9_confidence_at_least_half (model : ModelPipeline) (row : FeatureRow)
    (h0 : 0 ≤ (model.predict_proba row.mean_heart_rate row.std_heart_rate row.pnn50).1)
    (h1 : 0 ≤ (model.predict_proba row.mean_heart_rate row.std_heart_rate row.pnn50).2)
    (hsum : (model.predict_proba row.mean_heart_rate row.std_heart_rate row.pnn50).1
      + (model.predict_proba row.mean_heart_rate row.std_heart_rate row.pnn50).2 = 1) :
    1 / 2 ≤ (predict_rhythm model row).confidence ∧
    (report_of_row (predict_rhythm model row)).confidence_score =
      (predict_rhythm model row).confidence ∧
    generate_health_report [predict_rhythm model row] =
      some (report_of_row (predict_rhythm model row)) := by
  refine ⟨?_, rfl, rfl⟩
  have hc : (predict_rhythm model row).confidence =
      max (model.predict_proba row.mean_heart_rate row.std_heart_rate row.pnn50).1
        (model.predict_proba row.mean_heart_rate row.std_heart_rate row.pnn50).2 := rfl
  rw [hc]
  rcases le_total (model.predict_proba row.mean_heart_rate row.std_heart_rate row.pnn50).1
    (model.predict_proba row.mean_heart_rate row.std_heart_rate row.pnn50).2 with h | h
  · rw [max_eq_right h]
    linarith
  · rw [max_eq_left h]
    linarith

/-- C9, witness: the uniform `(1/2, 1/2)` predictor yields confidence at
least `1/2` on a concrete feature row. -/
theorem C9_confidence_at_least_half_witness :
    1 / 2 ≤ (predict_rhythm modelHalf row0).confidence ∧
    (report_of_row (predict_rhythm modelHalf row0)).confidence_score =
      (predict_rhythm modelHalf row0).confidence ∧
    generate_health_report [predict_rhythm modelHalf row0] =
      some (report_of_row (predict_rhythm modelHalf row0)) :=
  C9_confidence_at_least_half modelHalf row0 (by norm_num [modelHalf])
    (by norm_num [modelHalf]) (by norm_num [modelHalf])

/-- C10: the prediction columns depend only on the three model features —
two feature rows that agree on `mean_heart_rate`, `std_heart_rate` and
`pnn50` receive, from the same predictor, the same prediction, the same two
probability columns, the same confidence and the same label, whatever their
timestamp, quality score or sample counts. -/
theorem C10_prediction_depends_only_on_features (model : ModelPipeline)
    (r1 r2 : FeatureRow)
    (h1 : r1.mean_heart_rate = r2.mean_heart_rate)
    (h2 : r1.std_heart_rate = r2.std_heart_rate)
    (h3 : r1.pnn50 = r2.pnn50) :
    (predict_rhythm model r1).prediction = (predict_rhythm model r2).prediction ∧
    (predict_rhythm model r1).normal_probability =
      (predict_rhythm model r2).normal_probability ∧
    (predict_rhythm model r1).irregular_probability =
      (predict_rhythm model r2).irregular_probability ∧
    (predict_rhythm model r1).confidence = (predict_rhythm model r2).confidence ∧
    (predict_rhythm model r1).rhythm_classification =
      (predict_rhythm model r2).rhythm_classification := by
  simp [predict_rhythm, h1, h2, h3]

/-- C10, witness: two rows agreeing on the three model features but differing
in timestamp, quality score and sample counts get identical prediction
columns. -/
theorem C10_prediction_depends_only_on_features_witness :
    (predict_rhythm model0 row0).prediction = (predict_rhythm model0 row1).prediction ∧
    (predict_rhythm model0 row0).normal_probability =
      (predict_rhythm model0 row1).normal_probability ∧
    (predict_rhythm model0 row0).irregular_probability =
      (predict_rhythm model0 row1).irregular_probability ∧
    (predict_rhythm model0 row0).confidence = (predict_rhythm model0 row1).confidence ∧
    (predict_rhythm model0 row0).rhythm_classification =
      (predict_rhythm model0 row1).rhythm_classification :=
  C10_prediction_depends_only_on_features model0 row0 row1 rfl rfl rfl

end THC
